import Mathlib

/-!
Verification of the cx_Oracle test-environment layer (`test/TestEnv.py`):
credential resolution (`GetValue` and its accessors), the SODA feature
version gate (`SkipSodaTests` / `BaseTestCase.getSodaDatabase`), the
round-trip accounting class (`RoundTripInfo`), and the session-pool
checkout invariant described by the specification.

Versions are (major, minor) pairs of naturals compared lexicographically,
as Python compares tuples of ints.  Backend statistic counters are
modelled as integers.  Interactive and environment inputs are passed
explicitly; the mutable module-level `PARAMETERS` dictionary is threaded
as explicit state.
-/

namespace TestEnv

/-! ### Version gate (SkipSodaTests / getSodaDatabase) -/

/-- Python lexicographic `<` on 2-tuples of ints: `(a1,a2) < (b1,b2)`
iff `a1 < b1` or (`a1 == b1` and `a2 < b2`). -/
def verLt (a b : Nat × Nat) : Bool :=
  decide (a.1 < b.1) || (decide (a.1 = b.1) && decide (a.2 < b.2))

/-- Embedding of the skip conditions of `BaseTestCase.getSodaDatabase`
(TestEnv.py lines 227-237): the test is skipped when
`client < minclient`, or `server < minserver`, or
`server > (20, 1) and client < (20, 1)`. -/
def getSodaDatabaseSkips (client server minclient minserver : Nat × Nat) : Bool :=
  verLt client minclient || verLt server minserver ||
    (verLt (20, 1) server && verLt client (20, 1))

/-- The gate reports the SODA feature as supported exactly when none of
the skip conditions of `getSodaDatabase` fires. -/
def sodaSupported (client server minclient minserver : Nat × Nat) : Bool :=
  !(getSodaDatabaseSkips client server minclient minserver)

/-- Embedding of `SkipSodaTests` (TestEnv.py lines 188-197), which tests
the same three conditions with the fixed minimums `(18, 3)` and `(18, 0)`,
returning `True` as soon as one fires. -/
def SkipSodaTests (client server : Nat × Nat) : Bool :=
  if verLt client (18, 3) then true
  else if verLt server (18, 0) then true
  else if verLt (20, 1) server && verLt client (20, 1) then true
  else false

/-- Lexicographic strict order on version pairs, stated as a proposition. -/
def specVerLt (a b : Nat × Nat) : Prop :=
  a.1 < b.1 ∨ (a.1 = b.1 ∧ a.2 < b.2)

/-- Lexicographic weak order on version pairs, stated as a proposition. -/
def specVerLe (a b : Nat × Nat) : Prop :=
  a.1 < b.1 ∨ (a.1 = b.1 ∧ a.2 ≤ b.2)

/-! ### Credential resolution (GetValue and accessors) -/

/-- Default values at the top of TestEnv.py (lines 54-56). -/
def DEFAULT_MAIN_USER : String := "pythontest"

def DEFAULT_PROXY_USER : String := "pythontestproxy"

def DEFAULT_CONNECT_STRING : String := "localhost/orclpdb1"

/-- How a prompt reads the reply: `echoed` models `input` and
`masked` models `getpass.getpass`. -/
inductive PromptKind where
  | echoed
  | masked
deriving DecidableEq, Repr

/-- Record of an interactive prompt issued by `GetValue`: the label
printed and whether the reply was masked. -/
structure PromptEvent where
  label : String
  kind : PromptKind
deriving DecidableEq, Repr

/-- Mutable context of `GetValue`: the module-level `PARAMETERS`
dictionary and the process environment `os.environ`. -/
structure Env where
  parameters : String → Option String
  environ : String → Option String

/-- The `Env` with empty `PARAMETERS` and an empty process environment. -/
def Env.empty : Env := ⟨fun _ => none, fun _ => none⟩

/-- Assignment `PARAMETERS[name] = value`. -/
def setParam (ps : String → Option String) (name value : String) :
    String → Option String :=
  fun n => if n = name then some value else ps n

/-- Python `str.strip()` with no argument: remove leading and trailing
whitespace.  Written by structural recursion on the character list so
that it evaluates inside the kernel. -/
def pystrip (s : String) : String :=
  ⟨((s.data.dropWhile Char.isWhitespace).reverse.dropWhile Char.isWhitespace).reverse⟩

/-- Result of one `GetValue` call: the returned value, the `PARAMETERS`
dictionary afterwards, and the prompt issued, if any. -/
structure GetValueResult where
  value : String
  parameters : String → Option String
  prompt : Option PromptEvent

/-- Embedding of `GetValue` (TestEnv.py lines 63-80).  `typed` is the
raw reply the user would type if prompted.  Python truthiness of a
string is non-emptiness, so `if defaultValue:` is `defaultValue ≠ ""`
and `if not value:` is `value = ""`; `input(label).strip()` is modelled
with `pystrip`. -/
def GetValue (st : Env) (name label defaultValue typed : String) : GetValueResult :=
  match st.parameters name with
  | some value => ⟨value, st.parameters, none⟩
  | none =>
    let envName := "CX_ORACLE_TEST_" ++ name
    match st.environ envName with
    | some value => ⟨value, setParam st.parameters name value, none⟩
    | none =>
      let label1 := if defaultValue ≠ "" then label ++ " [" ++ defaultValue ++ "]" else label
      let label2 := label1 ++ ": "
      let kind := if defaultValue ≠ "" then PromptKind.echoed else PromptKind.masked
      let value0 := if defaultValue ≠ "" then pystrip typed else typed
      let value := if value0 = "" then defaultValue else value0
      ⟨value, setParam st.parameters name value, some ⟨label2, kind⟩⟩

/-- Embedding of `GetMainUser` (TestEnv.py line 82-83). -/
def GetMainUser (st : Env) (typed : String) : GetValueResult :=
  GetValue st "MAIN_USER" "Main User Name" DEFAULT_MAIN_USER typed

/-- Embedding of `GetMainPassword` (line 85-86): resolves the main user
first (to build the label), then resolves the password with an empty
default.  The result is that of the password `GetValue` call. -/
def GetMainPassword (st : Env) (typedUser typedPwd : String) : GetValueResult :=
  let ru := GetMainUser st typedUser
  GetValue { st with parameters := ru.parameters }
    "MAIN_PASSWORD" ("Password for " ++ ru.value) "" typedPwd

/-- Embedding of `GetProxyUser` (line 88-89). -/
def GetProxyUser (st : Env) (typed : String) : GetValueResult :=
  GetValue st "PROXY_USER" "Proxy User Name" DEFAULT_PROXY_USER typed

/-- Embedding of `GetProxyPassword` (line 91-92). -/
def GetProxyPassword (st : Env) (typedUser typedPwd : String) : GetValueResult :=
  let ru := GetProxyUser st typedUser
  GetValue { st with parameters := ru.parameters }
    "PROXY_PASSWORD" ("Password for " ++ ru.value) "" typedPwd

/-- Embedding of `GetConnectString` (line 94-95). -/
def GetConnectString (st : Env) (typed : String) : GetValueResult :=
  GetValue st "CONNECT_STRING" "Connect String" DEFAULT_CONNECT_STRING typed

/-- Embedding of the two `GetValue` calls inside `GetAdminConnectString`
(lines 108-111): the admin user with default `"admin"`, then the admin
password with an empty default and a label built from the resolved
user.  Returns the pair of results. -/
def GetAdminCredentials (st : Env) (typedUser typedPwd : String) :
    GetValueResult × GetValueResult :=
  let ru := GetValue st "ADMIN_USER" "Administrative user" "admin" typedUser
  let rp := GetValue { st with parameters := ru.parameters }
    "ADMIN_PASSWORD" ("Password for " ++ ru.value) "" typedPwd
  (ru, rp)

/-! ### Round-trip accounting (class RoundTripInfo) -/

/-- State of a `RoundTripInfo` tracker: the previous sample of the
backend round-trip counter and the SID of the tracked session. -/
structure RoundTripInfo where
  prevRoundTrips : Int
  sid : Int
deriving DecidableEq, Repr

/-- Embedding of `RoundTripInfo.getRoundTrips` (TestEnv.py lines
209-220).  The admin-connection query that fetches the cumulative
round-trip counter of session `self.sid` from `v$sesstat` is modelled by
passing its result `currentRoundTrips` explicitly; the method returns
`currentRoundTrips - self.prevRoundTrips` and stores `currentRoundTrips`
as the new previous sample. -/
def getRoundTrips (info : RoundTripInfo) (currentRoundTrips : Int) :
    Int × RoundTripInfo :=
  (currentRoundTrips - info.prevRoundTrips,
   { info with prevRoundTrips := currentRoundTrips })

/-- Embedding of `RoundTripInfo.__init__` (TestEnv.py lines 201-207).
It sets `prevRoundTrips` to 0, opens the admin connection, runs the SID
lookup query on the tracked connection itself (which adds
`lookupRoundTrips` round trips to that session, on top of the
`counterBeforeLookup` already accumulated), and only then takes the
baseline sample by calling `getRoundTrips`.  Returns the constructed
tracker together with the backend counter value at the end of
construction. -/
def RoundTripInfo.construct (sidFetched counterBeforeLookup lookupRoundTrips : Int) :
    RoundTripInfo × Int :=
  let counterAtBaseline := counterBeforeLookup + lookupRoundTrips
  let info0 : RoundTripInfo := { prevRoundTrips := 0, sid := sidFetched }
  ((getRoundTrips info0 counterAtBaseline).2, counterAtBaseline)

/-- Successive `getRoundTrips` calls over a list of backend counter
readings, collecting the returned deltas. -/
def runDeltas : RoundTripInfo → List Int → List Int
  | _, [] => []
  | info, r :: rs =>
    let step := getRoundTrips info r
    step.1 :: runDeltas step.2 rs

/-! ### Session pool (modelled from the spec) -/

/-- Modelled from the spec: the operations of `Pool.Acquire` and
`Pool.Release` from spec section 4.2; the `SessionPool` implementation
itself lives in the cx_Oracle C extension and is not under `src/`. -/
inductive PoolOp where
  | acquire
  | release
deriving DecidableEq, Repr

/-- Modelled from the spec: pool bookkeeping state from spec sections
3 and 4.2 — a bounded collection of connections with a free set and a
checked-out count, grown in increments up to `maxSize`. -/
structure Pool where
  maxSize : Nat
  increment : Nat
  free : Nat
  checkedOut : Nat
deriving DecidableEq, Repr

/-- Number of live physical connections owned by the pool. -/
def Pool.live (p : Pool) : Nat := p.free + p.checkedOut

/-- Modelled from the spec: `CreatePool(credential, connectString,
minSize, maxSize, increment, options)` opens an initial free set of
`minSize` connections (capped at `maxSize`) with nothing checked out. -/
def Pool.create (minSize maxSize increment : Nat) : Pool :=
  { maxSize := maxSize, increment := increment,
    free := min minSize maxSize, checkedOut := 0 }

/-- Modelled from the spec: one atomic `Acquire` or `Release` (spec
sections 4.2 and 5: pool-state mutation is serialized by a lock, so a
concurrent execution is an interleaving of these atomic steps).
`Acquire` hands out a free connection, or creates new physical
connections in increments of `increment` up to `maxSize` when the free
set is empty, and blocks or fails with `PoolExhausted` — leaving the
state unchanged — when the pool is at capacity.  `Release` returns a
checked-out connection to the free set; releasing a connection never
acquired fails without corrupting the bookkeeping. -/
def Pool.step (p : Pool) (op : PoolOp) : Pool :=
  match op with
  | .acquire =>
    if 0 < p.free then
      { p with free := p.free - 1, checkedOut := p.checkedOut + 1 }
    else if p.live < p.maxSize then
      let grown := min (max p.increment 1) (p.maxSize - p.live)
      { p with free := p.free + grown - 1, checkedOut := p.checkedOut + 1 }
    else
      p
  | .release =>
    if 0 < p.checkedOut then
      { p with free := p.free + 1, checkedOut := p.checkedOut - 1 }
    else
      p

/-- All states visited while executing a sequence of pool operations,
the initial state included. -/
def Pool.trace (p : Pool) : List PoolOp → List Pool
  | [] => [p]
  | op :: ops => p :: Pool.trace (p.step op) ops

theorem verLt_iff (a b : Nat × Nat) : verLt a b = true ↔ specVerLt a b := by
  simp [verLt, specVerLt]

theorem verLt_eq_false_iff (a b : Nat × Nat) : verLt a b = false ↔ specVerLe b a := by
  simp [verLt, specVerLe]
  omega

theorem getValue_stores (st : Env) (name label defaultValue typed : String) :
    (GetValue st name label defaultValue typed).parameters name =
      some (GetValue st name label defaultValue typed).value := by
  unfold GetValue
  cases hp : st.parameters name with
  | some v => simp [hp]
  | none =>
    cases he : st.environ ("CX_ORACLE_TEST_" ++ name) with
    | some v => simp [hp, he, setParam]
    | none => simp [hp, he, setParam]

theorem getValue_prompt_kind (st : Env) (name label defaultValue typed : String)
    (p : PromptEvent)
    (hp : (GetValue st name label defaultValue typed).prompt = some p) :
    p.kind = if defaultValue ≠ "" then PromptKind.echoed else PromptKind.masked := by
  unfold GetValue at hp
  cases h1 : st.parameters name with
  | some v => simp [h1] at hp
  | none =>
    cases h2 : st.environ ("CX_ORACLE_TEST_" ++ name) with
    | some v => simp [h1, h2] at hp
    | none =>
      simp only [h1, h2] at hp
      cases hp
      rfl

theorem getValue_cached_hit (ps : String → Option String)
    (environ2 : String → Option String) (name label defaultValue typed v : String)
    (hv : ps name = some v) :
    GetValue ⟨ps, environ2⟩ name label defaultValue typed = ⟨v, ps, none⟩ := by
  unfold GetValue
  simp [hv]

theorem runDeltas_nonneg_aux (prev sid : Int) (rs : List Int)
    (h : List.Chain (· ≤ ·) prev rs) :
    ∀ d ∈ runDeltas ⟨prev, sid⟩ rs, 0 ≤ d := by
  induction rs generalizing prev with
  | nil => intro d hd; simp [runDeltas] at hd
  | cons r rs ih =>
    rw [List.chain_cons] at h
    obtain ⟨hle, hchain⟩ := h
    intro d hd
    simp only [runDeltas] at hd
    rcases List.mem_cons.mp hd with hd | hd
    · simp only [getRoundTrips] at hd
      omega
    · exact ih r hchain d hd

theorem Pool.step_preserves (p : Pool) (op : PoolOp) (h : p.live ≤ p.maxSize) :
    (p.step op).live ≤ (p.step op).maxSize ∧ (p.step op).maxSize = p.maxSize := by
  cases op <;> simp only [Pool.step] <;> split_ifs <;>
    simp_all [Pool.live] <;> omega

theorem Pool.trace_invariant (ops : List PoolOp) (p : Pool) (h : p.live ≤ p.maxSize)
    (s : Pool) (hs : s ∈ Pool.trace p ops) :
    s.live ≤ s.maxSize ∧ s.maxSize = p.maxSize := by
  induction ops generalizing p with
  | nil =>
    simp [Pool.trace] at hs
    subst hs
    exact ⟨h, rfl⟩
  | cons op ops ih =>
    simp only [Pool.trace] at hs
    rcases List.mem_cons.mp hs with hs | hs
    · subst hs
      exact ⟨h, rfl⟩
    · obtain ⟨hstep, hmax⟩ := Pool.step_preserves p op h
      obtain ⟨h1, h2⟩ := ih (p.step op) hstep hs
      exact ⟨h1, h2.trans hmax⟩

end TestEnv

/-- Claim C2: every `getRoundTrips` call returns exactly
`current - previousSample` and stores `current` as the new previous
sample; in particular, when the counter has increased by exactly 1 since
the previous call, the returned delta is exactly 1. -/
theorem getRoundTrips_delta (info : TestEnv.RoundTripInfo) (current : Int) :
    (TestEnv.getRoundTrips info current).1 = current - info.prevRoundTrips ∧
    (TestEnv.getRoundTrips info current).2.prevRoundTrips = current ∧
    (TestEnv.getRoundTrips info current).2.sid = info.sid ∧
    (TestEnv.getRoundTrips info (info.prevRoundTrips + 1)).1 = 1 := by
  refine ⟨rfl, rfl, rfl, ?_⟩
  simp [TestEnv.getRoundTrips]

/-- Claim C3: if `getRoundTrips` is called twice in a row and the
backend counter reading is unchanged between the two calls, the second
call returns 0. -/
theorem getRoundTrips_twice_zero (info : TestEnv.RoundTripInfo)
    (reading1 reading2 : Int) (hsame : reading2 = reading1) :
    (TestEnv.getRoundTrips (TestEnv.getRoundTrips info reading1).2 reading2).1 = 0 := by
  subst hsame
  simp [TestEnv.getRoundTrips]

/-- Witness for C3 at a concrete tracker and reading. -/
theorem getRoundTrips_twice_zero_witness :
    (TestEnv.getRoundTrips
      (TestEnv.getRoundTrips ⟨0, 7⟩ 5).2 5).1 = 0 :=
  getRoundTrips_twice_zero ⟨0, 7⟩ 5 5 rfl

/-- Claim C4: starting from the initial previous sample 0 taken at
construction, if the sequence of backend counter readings is
monotonically non-decreasing with a non-negative first reading (that is,
`List.Chain (· ≤ ·) 0 readings`), every delta returned by the sequence
of `getRoundTrips` calls is non-negative. -/
theorem runDeltas_nonneg (sid : Int) (readings : List Int)
    (h : List.Chain (· ≤ ·) 0 readings) :
    ∀ d ∈ TestEnv.runDeltas ⟨0, sid⟩ readings, 0 ≤ d :=
  TestEnv.runDeltas_nonneg_aux 0 sid readings h

/-- Witness for C4: the readings 0, 2, 5 form a non-decreasing chain
from 0 and produce the deltas 0, 2, 3, all non-negative; the theorem
applied to the delta 3 yields its non-negativity. -/
theorem runDeltas_nonneg_witness :
    List.Chain (· ≤ ·) 0 [0, 2, 5] ∧
    TestEnv.runDeltas ⟨0, 7⟩ [0, 2, 5] = [0, 2, 3] ∧ (0 : Int) ≤ 3 :=
  ⟨by simp [List.chain_cons], by decide,
   runDeltas_nonneg 7 [0, 2, 5] (by simp [List.chain_cons]) 3 (by decide)⟩

/-- Claim C10: the constructor takes the baseline counter sample only
after the SID-lookup query has run on the tracked connection, so the
baseline equals the counter value at the end of construction; a
`getRoundTrips` call immediately after construction with no intervening
activity returns 0, and every later call returns
`reading - (counterBeforeLookup + lookupRoundTrips)`, excluding all
round trips incurred before or during construction. -/
theorem construct_baseline (sidFetched counterBeforeLookup lookupRoundTrips : Int) :
    (TestEnv.RoundTripInfo.construct sidFetched counterBeforeLookup lookupRoundTrips).2 =
      counterBeforeLookup + lookupRoundTrips ∧
    (TestEnv.RoundTripInfo.construct
        sidFetched counterBeforeLookup lookupRoundTrips).1.prevRoundTrips =
      counterBeforeLookup + lookupRoundTrips ∧
    (TestEnv.getRoundTrips
        (TestEnv.RoundTripInfo.construct sidFetched counterBeforeLookup lookupRoundTrips).1
        (TestEnv.RoundTripInfo.construct sidFetched counterBeforeLookup lookupRoundTrips).2).1
      = 0 ∧
    (∀ reading : Int,
      (TestEnv.getRoundTrips
          (TestEnv.RoundTripInfo.construct sidFetched counterBeforeLookup lookupRoundTrips).1
          reading).1 =
        reading - (counterBeforeLookup + lookupRoundTrips)) := by
  refine ⟨rfl, rfl, ?_, fun reading => rfl⟩
  simp [TestEnv.RoundTripInfo.construct, TestEnv.getRoundTrips]

/-- Claim C1: the capability gate reports the feature as supported iff
`clientVersion >= minClient` and `serverVersion >= minServer` and not
(`serverVersion > (20,1)` and `clientVersion < (20,1)`), with versions
compared lexicographically; `SkipSodaTests` is this gate at the fixed
minimums `(18,3)`, `(18,0)`; and the three quoted evaluations hold:
supported at `((18,3),(18,0))`, unsupported at `((17,0),(18,0))` and at
`((19,0),(20,2))` against minimums `(18,3)`, `(18,0)`. -/
theorem soda_gate_spec (client server minclient minserver : Nat × Nat) :
    (TestEnv.sodaSupported client server minclient minserver = true ↔
      (TestEnv.specVerLe minclient client ∧ TestEnv.specVerLe minserver server ∧
        ¬(TestEnv.specVerLt (20, 1) server ∧ TestEnv.specVerLt client (20, 1)))) ∧
    TestEnv.SkipSodaTests client server =
      TestEnv.getSodaDatabaseSkips client server (18, 3) (18, 0) ∧
    TestEnv.sodaSupported (18, 3) (18, 0) (18, 3) (18, 0) = true ∧
    TestEnv.sodaSupported (17, 0) (18, 0) (18, 3) (18, 0) = false ∧
    TestEnv.sodaSupported (19, 0) (20, 2) (18, 3) (18, 0) = false := by
  refine ⟨?_, ?_, by decide, by decide, by decide⟩
  · obtain ⟨c1, c2⟩ := client
    obtain ⟨s1, s2⟩ := server
    obtain ⟨m1, m2⟩ := minclient
    obtain ⟨n1, n2⟩ := minserver
    simp only [TestEnv.sodaSupported, TestEnv.getSodaDatabaseSkips, Bool.not_eq_true',
      Bool.or_eq_false_iff, Bool.and_eq_false_iff, TestEnv.verLt_eq_false_iff,
      TestEnv.verLt_iff]
    simp only [TestEnv.specVerLt, TestEnv.specVerLe]
    omega
  · unfold TestEnv.SkipSodaTests TestEnv.getSodaDatabaseSkips
    cases h1 : TestEnv.verLt client (18, 3) <;>
      cases h2 : TestEnv.verLt server (18, 0) <;>
        cases h3 : TestEnv.verLt (20, 1) server && TestEnv.verLt client (20, 1) <;>
          simp [h1, h2, h3]

/-- Claim C5: `GetValue` resolves a parameter in priority order: a
previously stored entry in `PARAMETERS` is returned first (no prompt);
otherwise the environment variable `CX_ORACLE_TEST_<name>` is used if
present (no prompt); otherwise the user is prompted, the stated default
is shown in the prompt label, and the default is substituted when the
entered value is empty. -/
theorem getValue_resolution_order (st : TestEnv.Env)
    (name label defaultValue typed : String) :
    (∀ v, st.parameters name = some v →
      (TestEnv.GetValue st name label defaultValue typed).value = v ∧
      (TestEnv.GetValue st name label defaultValue typed).prompt = none) ∧
    (st.parameters name = none →
      ∀ v, st.environ ("CX_ORACLE_TEST_" ++ name) = some v →
        (TestEnv.GetValue st name label defaultValue typed).value = v ∧
        (TestEnv.GetValue st name label defaultValue typed).prompt = none) ∧
    (st.parameters name = none →
      st.environ ("CX_ORACLE_TEST_" ++ name) = none →
      ∃ p, (TestEnv.GetValue st name label defaultValue typed).prompt = some p ∧
        (defaultValue ≠ "" →
          p.label = label ++ " [" ++ defaultValue ++ "]" ++ ": ") ∧
        ((if defaultValue ≠ "" then TestEnv.pystrip typed else typed) = "" →
          (TestEnv.GetValue st name label defaultValue typed).value = defaultValue)) := by
  refine ⟨?_, ?_, ?_⟩
  · intro v hv
    unfold TestEnv.GetValue
    simp [hv]
  · intro hp v hv
    unfold TestEnv.GetValue
    simp [hp, hv]
  · intro hp he
    unfold TestEnv.GetValue
    simp only [hp, he]
    refine ⟨_, rfl, ?_, ?_⟩
    · intro hd
      simp [hd]
    · intro h0
      simp [h0]

/-- Witness for C5 at the concrete main-user parameter with empty
`PARAMETERS`, empty environment and an empty interactive reply: the
prompt fires, shows the default in its label, and the default is
substituted. -/
theorem getValue_resolution_order_witness :
    (TestEnv.GetValue TestEnv.Env.empty "MAIN_USER" "Main User Name"
        "pythontest" "").value = "pythontest" ∧
    (TestEnv.GetValue TestEnv.Env.empty "MAIN_USER" "Main User Name"
        "pythontest" "").prompt =
      some ⟨"Main User Name [pythontest]: ", TestEnv.PromptKind.echoed⟩ := by
  have h := (getValue_resolution_order TestEnv.Env.empty "MAIN_USER"
    "Main User Name" "pythontest" "").2.2 rfl rfl
  obtain ⟨p, hs, hl, hv⟩ := h
  have hval := hv (by decide)
  refine ⟨hval, ?_⟩
  rw [hs]
  have hlbl := hl (by decide)
  have hp : p = ⟨"Main User Name [pythontest]: ", TestEnv.PromptKind.echoed⟩ := by
    have hk : p.kind = TestEnv.PromptKind.echoed := by
      have := TestEnv.getValue_prompt_kind TestEnv.Env.empty "MAIN_USER"
        "Main User Name" "pythontest" "" p hs
      simpa using this
    cases p
    simp_all
  rw [hp]

/-- Claim C6: once a `GetValue` call for a name has returned a value,
every subsequent call with the same name returns the same value with no
prompt and no change to `PARAMETERS`, regardless of the environment, the
label, the default and any typed reply of the second call. -/
theorem getValue_cached (st : TestEnv.Env)
    (name label defaultValue typed : String)
    (environ2 : String → Option String) (label2 defaultValue2 typed2 : String) :
    TestEnv.GetValue
        ⟨(TestEnv.GetValue st name label defaultValue typed).parameters, environ2⟩
        name label2 defaultValue2 typed2 =
      ⟨(TestEnv.GetValue st name label defaultValue typed).value,
       (TestEnv.GetValue st name label defaultValue typed).parameters, none⟩ :=
  TestEnv.getValue_cached_hit _ _ _ _ _ _ _
    (TestEnv.getValue_stores st name label defaultValue typed)

/-- Claim C7: whenever one of the credential accessors falls through to
an interactive prompt, the reply is masked (`getpass`) exactly for the
password parameters MAIN_PASSWORD, PROXY_PASSWORD and ADMIN_PASSWORD,
and echoed (`input`) exactly for the user-name and connect-string
parameters. -/
theorem prompt_masking (st : TestEnv.Env) (typedUser typedPwd typed : String) :
    (∀ p, (TestEnv.GetMainUser st typed).prompt = some p →
      p.kind = TestEnv.PromptKind.echoed) ∧
    (∀ p, (TestEnv.GetMainPassword st typedUser typedPwd).prompt = some p →
      p.kind = TestEnv.PromptKind.masked) ∧
    (∀ p, (TestEnv.GetProxyUser st typed).prompt = some p →
      p.kind = TestEnv.PromptKind.echoed) ∧
    (∀ p, (TestEnv.GetProxyPassword st typedUser typedPwd).prompt = some p →
      p.kind = TestEnv.PromptKind.masked) ∧
    (∀ p, (TestEnv.GetConnectString st typed).prompt = some p →
      p.kind = TestEnv.PromptKind.echoed) ∧
    (∀ p, (TestEnv.GetAdminCredentials st typedUser typedPwd).1.prompt = some p →
      p.kind = TestEnv.PromptKind.echoed) ∧
    (∀ p, (TestEnv.GetAdminCredentials st typedUser typedPwd).2.prompt = some p →
      p.kind = TestEnv.PromptKind.masked) := by
  refine ⟨?_, ?_, ?_, ?_, ?_, ?_, ?_⟩
  · intro p hp
    have hk := TestEnv.getValue_prompt_kind st "MAIN_USER" "Main User Name"
      TestEnv.DEFAULT_MAIN_USER typed p hp
    simpa [TestEnv.DEFAULT_MAIN_USER] using hk
  · intro p hp
    unfold TestEnv.GetMainPassword at hp
    have hk := TestEnv.getValue_prompt_kind _ "MAIN_PASSWORD" _ "" typedPwd p hp
    simpa using hk
  · intro p hp
    have hk := TestEnv.getValue_prompt_kind st "PROXY_USER" "Proxy User Name"
      TestEnv.DEFAULT_PROXY_USER typed p hp
    simpa [TestEnv.DEFAULT_PROXY_USER] using hk
  · intro p hp
    unfold TestEnv.GetProxyPassword at hp
    have hk := TestEnv.getValue_prompt_kind _ "PROXY_PASSWORD" _ "" typedPwd p hp
    simpa using hk
  · intro p hp
    have hk := TestEnv.getValue_prompt_kind st "CONNECT_STRING" "Connect String"
      TestEnv.DEFAULT_CONNECT_STRING typed p hp
    simpa [TestEnv.DEFAULT_CONNECT_STRING] using hk
  · intro p hp
    unfold TestEnv.GetAdminCredentials at hp
    have hk := TestEnv.getValue_prompt_kind st "ADMIN_USER" "Administrative user"
      "admin" typedUser p hp
    simpa using hk
  · intro p hp
    unfold TestEnv.GetAdminCredentials at hp
    have hk := TestEnv.getValue_prompt_kind _ "ADMIN_PASSWORD" _ "" typedPwd p hp
    simpa using hk

/-- Witness for C7: with empty `PARAMETERS` and environment, the
main-user prompt is echoed and the main-password prompt is masked. -/
theorem prompt_masking_witness :
    TestEnv.PromptEvent.kind
      ⟨"Main User Name [pythontest]: ", TestEnv.PromptKind.echoed⟩ =
      TestEnv.PromptKind.echoed ∧
    TestEnv.PromptEvent.kind
      ⟨"Password for u: ", TestEnv.PromptKind.masked⟩ =
      TestEnv.PromptKind.masked :=
  ⟨(prompt_masking TestEnv.Env.empty "u" "pw" "x").1
      ⟨"Main User Name [pythontest]: ", TestEnv.PromptKind.echoed⟩ (by decide),
   (prompt_masking TestEnv.Env.empty "u" "pw" "x").2.1
      ⟨"Password for u: ", TestEnv.PromptKind.masked⟩ (by decide)⟩

/-- Claim C9: when the environment variable `CX_ORACLE_TEST_<name>` is
set to the empty string and the parameter is not yet cached, `GetValue`
returns the empty string, caches it, does not prompt, and does not
substitute the documented default. -/
theorem getValue_empty_env (st : TestEnv.Env)
    (name label defaultValue typed : String)
    (hp : st.parameters name = none)
    (he : st.environ ("CX_ORACLE_TEST_" ++ name) = some "") :
    (TestEnv.GetValue st name label defaultValue typed).value = "" ∧
    (TestEnv.GetValue st name label defaultValue typed).prompt = none ∧
    (TestEnv.GetValue st name label defaultValue typed).parameters name = some "" := by
  unfold TestEnv.GetValue
  simp [hp, he, TestEnv.setParam]

/-- Witness for C9: with `CX_ORACLE_TEST_MAIN_USER` set to the empty
string, `GetValue` returns the empty string rather than the default
"pythontest" and never prompts. -/
theorem getValue_empty_env_witness :
    (TestEnv.GetValue
        ⟨fun _ => none,
         fun n => if n = "CX_ORACLE_TEST_MAIN_USER" then some "" else none⟩
        "MAIN_USER" "Main User Name" "pythontest" "typed").value = "" ∧
    (TestEnv.GetValue
        ⟨fun _ => none,
         fun n => if n = "CX_ORACLE_TEST_MAIN_USER" then some "" else none⟩
        "MAIN_USER" "Main User Name" "pythontest" "typed").prompt = none ∧
    (TestEnv.GetValue
        ⟨fun _ => none,
         fun n => if n = "CX_ORACLE_TEST_MAIN_USER" then some "" else none⟩
        "MAIN_USER" "Main User Name" "pythontest" "typed").parameters "MAIN_USER" =
      some "" :=
  getValue_empty_env _ "MAIN_USER" "Main User Name" "pythontest" "typed"
    rfl (by decide)


/-- Claim C8: for every pool configured with maximum size `M`, at no
point during any interleaving of `Acquire` and `Release` steps are more
than `M` connections concurrently checked out: every state visited
while executing any operation sequence from a freshly created pool has
`checkedOut ≤ M`. -/
theorem pool_checkedOut_le_max (minSize M increment : Nat) (ops : List TestEnv.PoolOp)
    (s : TestEnv.Pool)
    (hs : s ∈ TestEnv.Pool.trace (TestEnv.Pool.create minSize M increment) ops) :
    s.checkedOut ≤ M := by
  obtain ⟨hlive, hmax⟩ := TestEnv.Pool.trace_invariant ops
    (TestEnv.Pool.create minSize M increment) (by simp [TestEnv.Pool.live, TestEnv.Pool.create]) s hs
  rw [show (TestEnv.Pool.create minSize M increment).maxSize = M from rfl] at hmax
  have : s.checkedOut ≤ s.live := by simp [TestEnv.Pool.live]
  omega

/-- Witness for C8: a pool of maximum size 2 run through three acquires
(the third finds the pool exhausted) and one release; the state after
the second acquire has both connections checked out, and the theorem
bounds it by 2. -/
theorem pool_checkedOut_le_max_witness :
    (⟨2, 1, 0, 2⟩ : TestEnv.Pool) ∈
      TestEnv.Pool.trace (TestEnv.Pool.create 1 2 1)
        [TestEnv.PoolOp.acquire, TestEnv.PoolOp.acquire,
         TestEnv.PoolOp.acquire, TestEnv.PoolOp.release] ∧
    (⟨2, 1, 0, 2⟩ : TestEnv.Pool).checkedOut ≤ 2 :=
  ⟨by decide,
   pool_checkedOut_le_max 1 2 1
     [TestEnv.PoolOp.acquire, TestEnv.PoolOp.acquire,
      TestEnv.PoolOp.acquire, TestEnv.PoolOp.release]
     ⟨2, 1, 0, 2⟩ (by decide)⟩
